import Mathlib

/-!
Shallow embedding of the tuspyserver resumable-upload router
(src/tuspyserver: `router.py`, `request.py`, `file.py`, `params.py`).

Conventions of the embedding:
* Payload bytes are `List Nat`; an HTTP request body is the list of chunks
  yielded by `request.stream()`.
* The on-disk state is a `Store`: an association list of payload files
  (`<id>` -> bytes) and one of sidecar files (`<id>.info` -> record).
* A handler result carries the resulting store, the HTTP status code, and
  `crash : Option PyErr` — `some er` when an uncaught Python exception
  escapes the handler or one of its dependencies (surfaced by the framework
  as status 500).  The source contains several call-signature errors that
  raise on every execution of their line (`len(file)` against
  `__len__(self, uid)`, `TusUploadFile(options=..., params=...)` without the
  required positional `uid`, `file.delete()` against `delete(self, uid)`,
  `file.params.file.paramsdata` against a record with no `file` attribute,
  and `gc_files`' `TusUploadFile(uid=uid)` without `options`); the embedding
  models each of those lines as the crash it raises, with everything after
  it unreachable, never as the behaviour the surrounding code suggests was
  intended.
* An `auth` guard that fails is modelled as `some e` with `e` the HTTP
  status the guard raises; `none` means the guard passes.
* Machine integers are `Nat`: the header values involved (`Content-Length`,
  `Upload-Offset`, `Upload-Length`, `max_size`) are non-negative integers
  and no arithmetic in the source wraps.
* Timestamps are carried as opaque strings (the source stores
  `datetime.isoformat()` strings in the sidecar).
* The module `tuspyserver/info.py` (class `TusUploadInfo`, the sidecar
  load/save delegation behind `TusUploadFile.params` / `TusUploadFile.info`)
  is not present in the source tree.  Its behaviour is modelled from the
  spec: reading `params`/`info` parses the sidecar and yields the record or
  nothing, and assigning `params` persists the record.
-/

namespace Tuspyserver

/-- Payload contents: a sequence of bytes. -/
abbrev Bytes := List Nat

/-- An HTTP request body as delivered by `request.stream()`: a list of chunks. -/
abbrev Body := List Bytes

/-- An uncaught Python exception: the framework turns each into a 500. -/
inductive PyErr
  | typeError
  | attributeError
  | nameError
  | validationError
  | keyError
deriving Repr, DecidableEq

/-- `params.py`, class `TusUploadParams`.  The source annotates `size : int`,
but the creation route passes the `Upload-Length` header which is absent for
deferred-length uploads, so `size` is optional here ("declared total byte
length, or unknown if deferred"; see `extension_creation_route` for the
`ValidationError` this mismatch raises at creation).  `expires` is annotated
`float | str | None` in the source; the router only ever stores isoformat
strings, so it is `Option String` here. -/
structure TusUploadParams where
  metadata : List (String × String)
  size : Option Nat
  offset : Nat := 0
  upload_part : Nat := 0
  created_at : String
  defer_length : Bool
  upload_chunk_size : Nat := 0
  expires : Option String
deriving Repr, DecidableEq

/-- `router.py`, class `TusRouterOptions`.  The callable-valued fields are
modelled by whether they are configured: `on_upload_complete` is `true` iff
the host supplied a completion callable, `upload_complete_dep` is `true` iff
the host supplied a custom dependency factory (when `false`, the default
factory `lambda _: on_upload_complete or (lambda *_: None)` applies, so the
injected `on_complete` is the very same `on_upload_complete` callable).
The URL prefix field is spelled `prefix_`. -/
structure TusRouterOptions where
  prefix_ : String
  max_size : Nat
  days_to_keep : Nat
  on_upload_complete : Bool
  upload_complete_dep : Bool
  tus_version : String
  tus_extension : String
deriving Repr, DecidableEq

/-- Association-list lookup (filesystem directory keyed by file name). -/
def lookupA {α : Type} : List (String × α) → String → Option α
  | [], _ => none
  | kv :: rest, k => if kv.fst = k then some kv.snd else lookupA rest k

/-- Remove every binding of a key. -/
def removeA {α : Type} : List (String × α) → String → List (String × α)
  | [], _ => []
  | kv :: rest, k => if kv.fst = k then removeA rest k else kv :: removeA rest k

/-- Bind a key, replacing any previous binding (writing a file). -/
def insertA {α : Type} (l : List (String × α)) (k : String) (v : α) :
    List (String × α) :=
  (k, v) :: removeA l k

theorem lookupA_insertA_self {α : Type} (l : List (String × α)) (k : String)
    (v : α) : lookupA (insertA l k v) k = some v := by
  simp [insertA, lookupA]

/-- The `files_dir` directory: payload files (name `<id>`) and sidecar files
(name `<id>.info`), each keyed by the upload id. -/
structure Store where
  payloads : List (String × Bytes)
  sidecars : List (String × TusUploadParams)
deriving Repr, DecidableEq

/-- `TusUploadFile.read` / `TusUploadFile.exists`: the payload file contents. -/
def Store.payload (s : Store) (k : String) : Option Bytes :=
  lookupA s.payloads k

/-- Parsing the sidecar (`TusUploadFile.params` / `.info`; modelled from the
spec for the missing `info.py`: yields the record, or nothing when the
sidecar file is missing). -/
def Store.sidecar (s : Store) (k : String) : Option TusUploadParams :=
  lookupA s.sidecars k

/-- Persisting the sidecar (`file.params = new_params`). -/
def Store.setSidecar (s : Store) (k : String) (p : TusUploadParams) : Store :=
  { s with sidecars := insertA s.sidecars k p }

theorem Store.sidecar_setSidecar_self (s : Store) (k : String)
    (p : TusUploadParams) : (s.setSidecar k p).sidecar k = some p :=
  lookupA_insertA_self s.sidecars k p

/-- Python truthiness of the `expires` field (`None` and `""` are falsy). -/
def truthyStr : Option String → Bool
  | none => false
  | some s => s != ""

/-- `request.py` lines 36-50, the chunk loop of `get_request_chunks`:
`has_chunks = True`; an empty chunk is skipped (`continue`); for the first
non-empty chunk the guard expression `len(file) + len(chunk) >
options.max_size` evaluates `len(file)` first, which calls
`TusUploadFile.__len__` — declared `__len__(self, uid)` at `file.py` line
75 — through `len()` with no `uid`: `TypeError`.  The exception propagates
out of the dependency, so the max-size comparison, the
`HTTPException(413)`, the `f.write(chunk)` and the sidecar updates of lines
42-50 are all unreachable: no byte is ever appended and no 413 is ever
returned.  The result pairs the store — necessarily unchanged — with the
crash, if any. -/
def processChunks (opts : TusRouterOptions) (uuid : String) :
    Body → TusUploadParams → Store → Store × Option PyErr
  | [], _, s => (s, none)
  | c :: rest, p, s =>
    if c.length = 0 then processChunks opts uuid rest p s
    else (s, some .typeError)

/-- Outcome of the `get_request_chunks` dependency: the store as left on
disk, the crash when an exception escaped, and the boolean the function
returns when no exception was raised. -/
structure ChunksOut where
  store : Store
  crash : Option PyErr
  value : Bool
deriving Repr, DecidableEq

/-- `request.py` lines 17-64, `get_request_chunks`: if the sidecar fails to
parse or the payload file is missing, return `False` without writing;
otherwise run the chunk loop (which crashes on the first non-empty chunk,
see `processChunks`), and afterwards — only for a POST with an empty body
(`post_request and not has_chunks`) — reset `offset` and
`upload_chunk_size` to 0, increment `upload_part`, persist, and return
`True`.  (In the source, `options` and `post_request` are parameters of the
dependency; the router's PATCH route leaves `post_request` at its default
`False`, and no caller ever passes `True`.) -/
def get_request_chunks (opts : TusRouterOptions) (uuid : String) (body : Body)
    (post_request : Bool) (s : Store) : ChunksOut :=
  match s.sidecar uuid, s.payload uuid with
  | some p, some _ =>
    let has_chunks := !body.isEmpty
    let pr := processChunks opts uuid body p s
    match pr.snd with
    | some er => ⟨pr.fst, some er, true⟩
    | none =>
      if post_request && !has_chunks then
        let p2 := { p with offset := 0, upload_chunk_size := 0,
                           upload_part := p.upload_part + 1 }
        ⟨pr.fst.setSidecar uuid p2, none, true⟩
      else
        ⟨pr.fst, none, true⟩
  | _, _ => ⟨s, none, false⟩

theorem processChunks_fst (opts : TusRouterOptions) (uuid : String) :
    ∀ (body : Body) (p : TusUploadParams) (s : Store),
      (processChunks opts uuid body p s).fst = s
  | [], _, _ => rfl
  | c :: rest, p, s => by
    by_cases h0 : c.length = 0
    · simpa [processChunks, h0] using processChunks_fst opts uuid rest p s
    · simp [processChunks, h0]

/-- Streaming a PATCH body (`post_request = false` as the router wires it)
leaves the store unchanged: the loop crashes before any write. -/
theorem get_request_chunks_store (opts : TusRouterOptions) (uuid : String)
    (body : Body) (s : Store) :
    (get_request_chunks opts uuid body false s).store = s := by
  unfold get_request_chunks
  cases hs : s.sidecar uuid with
  | none => cases hp : s.payload uuid <;> rfl
  | some p =>
    cases hp : s.payload uuid with
    | none => rfl
    | some b =>
      cases he : (processChunks opts uuid body p s).snd with
      | some er => simpa [he] using processChunks_fst opts uuid body p s
      | none => simpa [he] using processChunks_fst opts uuid body p s

/-- Result of one PATCH request: the resulting store, the HTTP status, how
often each completion-hook call site ran, and the crash when an exception
escaped.  `directHookCalls` counts the direct invocation
`options.on_upload_complete(...)` (`router.py` lines 175-179);
`depHookCalls` counts the dependency-injected invocation `on_complete(...)`
(`router.py` lines 186-191). -/
structure PatchResult where
  store : Store
  status : Nat
  directHookCalls : Nat
  depHookCalls : Nat
  crash : Option PyErr
deriving Repr, DecidableEq

/-- `router.py` lines 133-193, `core_patch_route`, including its dependency
pipeline.  FastAPI resolves `Depends` in signature order, so
`get_request_chunks` runs BEFORE the `auth` guard; an exception it raises
(the `TypeError` on any non-empty chunk of an existing upload, see
`processChunks`) pre-empts everything, then a failing guard
(`auth = some e`) pre-empts the handler body.  The handler body — reached
only when the body contained no non-empty chunk or the files were missing:
404 when the sidecar is missing (the source also compares
`uuid != file.uid`, which never differs for a non-empty path parameter);
409 when the stored offset differs from `Upload-Offset + Content-Length`;
otherwise set `size := upload_offset` when `defer_length`, set `expires`
when falsy, and persist (line 164).  Then, when `size == offset`, both
completion call sites evaluate the argument `file.params.file.paramsdata`
(lines 178 and 188) — an attribute `TusUploadParams` does not have — so an
`AttributeError` escapes before either callable is invoked: status 500,
zero hook executions, with the line-164 sidecar update already persisted.
(When `options.on_upload_complete` is unset the direct site is skipped, but
the dependency-injected site evaluates the same expression.)  When
`size != offset` the route responds 204.  `nowExpiry` stands for
`(datetime.now() + timedelta(days=days_to_keep)).isoformat()`. -/
def core_patch_route (opts : TusRouterOptions) (auth : Option Nat)
    (uuid : String) (content_length upload_offset : Nat) (body : Body)
    (nowExpiry : String) (s : Store) : PatchResult :=
  let chunks := get_request_chunks opts uuid body false s
  match chunks.crash with
  | some er => ⟨chunks.store, 500, 0, 0, some er⟩
  | none =>
    match auth with
    | some e => ⟨chunks.store, e, 0, 0, none⟩
    | none =>
      let s1 := chunks.store
      match s1.sidecar uuid with
      | none => ⟨s1, 404, 0, 0, none⟩
      | some p =>
        if p.offset ≠ upload_offset + content_length then
          ⟨s1, 409, 0, 0, none⟩
        else
          let p1 := if p.defer_length then { p with size := some upload_offset } else p
          let p2 := if truthyStr p1.expires then p1
                    else { p1 with expires := some nowExpiry }
          let s2 := s1.setSidecar uuid p2
          if p2.size = some p2.offset then
            ⟨s2, 500, 0, 0, some .attributeError⟩
          else
            ⟨s2, 204, 0, 0, none⟩

/-- How often the user-configured `on_upload_complete` callable ran during
one PATCH: the direct call site, plus the dependency-injected call site
whenever the default factory is in effect (no custom `upload_complete_dep`),
since the default factory resolves `on_complete` to the very same
`on_upload_complete` callable. -/
def userHookCalls (opts : TusRouterOptions) (r : PatchResult) : Nat :=
  r.directHookCalls +
    (if opts.on_upload_complete ∧ ¬opts.upload_complete_dep then r.depHookCalls else 0)

/-- Result of a handler that returns only a status (HEAD, DELETE, OPTIONS),
plus the crash when an exception escaped. -/
structure SimpleResult where
  store : Store
  status : Nat
  crash : Option PyErr
deriving Repr, DecidableEq

/-- `router.py` lines 89-130, `core_head_route`: guard first; then 404 when
the payload file is missing (the source's other disjunct
`file.options is None` can never hold: `file.options` is the router's
options object); then resolve `filename` with fallback to `name` (else 400)
and `filetype` with fallback to `type` (else 400); else 200.  A present
payload with a missing sidecar raises an uncaught `AttributeError` at
`file.info.size` (line 99). -/
def core_head_route (opts : TusRouterOptions) (auth : Option Nat)
    (uuid : String) (s : Store) : SimpleResult :=
  match auth with
  | some e => ⟨s, e, none⟩
  | none =>
    if (s.payload uuid).isNone then ⟨s, 404, none⟩
    else
      match s.sidecar uuid with
      | none => ⟨s, 500, some .attributeError⟩
      | some p =>
        match (lookupA p.metadata "filename").orElse (fun _ => lookupA p.metadata "name") with
        | none => ⟨s, 400, none⟩
        | some _ =>
          match (lookupA p.metadata "filetype").orElse (fun _ => lookupA p.metadata "type") with
          | none => ⟨s, 400, none⟩
          | some _ => ⟨s, 200, none⟩

/-- `router.py` lines 262-279, `extension_termination_route`: guard first;
404 when the payload file is missing (`file.exists`).  Otherwise line 273
calls `file.delete()`, but `file.py` line 66 declares `delete(self, uid)`:
`TypeError` — nothing is removed, and the 204 lines below are unreachable.
Both files remain on disk. -/
def extension_termination_route (opts : TusRouterOptions) (auth : Option Nat)
    (uuid : String) (s : Store) : SimpleResult :=
  match auth with
  | some e => ⟨s, e, none⟩
  | none =>
    if (s.payload uuid).isSome then ⟨s, 500, some .typeError⟩
    else ⟨s, 404, none⟩

/-- Outcome of the GET retrieval route: a `FileResponse` (with its
`Content-Length` header value and download filename), a deliberate
`HTTPException`, or an uncaught `KeyError` escaping from the direct
indexing `file.info.metadata["name"]`. -/
inductive GetOutcome
  | fileResponse (contentLength : Nat) (filename : String)
  | httpError (code : Nat)
  | keyError (key : String)
deriving Repr, DecidableEq

/-- `router.py` lines 302-319, `extension_get_upload`.  Note the source
declares NO `Depends(auth)` for this route, so no guard parameter appears
here.  404 when the sidecar fails to parse or the payload file is missing;
then the handler indexes `file.info.metadata["name"]` directly — no
fallback to `"filename"`, no presence check — so a missing `"name"` key
raises `KeyError`. -/
def extension_get_upload (opts : TusRouterOptions) (uuid : String)
    (s : Store) : GetOutcome :=
  match s.sidecar uuid with
  | none => .httpError 404
  | some p =>
    if (s.payload uuid).isNone then .httpError 404
    else
      match lookupA p.metadata "name" with
      | none => .keyError "name"
      | some n => .fileResponse p.offset n

/-- The HTTP status an outcome of the GET route surfaces (an uncaught
`KeyError` becomes the framework's internal-server-error response). -/
def getOutcomeStatus : GetOutcome → Nat
  | .fileResponse _ _ => 200
  | .httpError c => c
  | .keyError _ => 500

/-- `router.py` lines 195-205, `core_options_route` (`OPTIONS /`): guard
first; always 204. -/
def core_options_route (opts : TusRouterOptions) (auth : Option Nat)
    (s : Store) : SimpleResult :=
  match auth with
  | some e => ⟨s, e, none⟩
  | none => ⟨s, 204, none⟩

/-- `router.py` lines 283-300, `options_upload_chunk` (`OPTIONS /{uuid}`):
guard first; 404 when the sidecar fails to parse or the payload file is
missing; else 204. -/
def options_upload_chunk (opts : TusRouterOptions) (auth : Option Nat)
    (uuid : String) (s : Store) : SimpleResult :=
  match auth with
  | some e => ⟨s, e, none⟩
  | none =>
    if (s.sidecar uuid).isNone ∨ (s.payload uuid).isNone then ⟨s, 404, none⟩
    else ⟨s, 204, none⟩

/-- The request headers `get_request_headers` consults. -/
structure RequestHeaders where
  host : Option String
  x_forwarded_proto : Option String
  x_forwarded_host : Option String
deriving Repr, DecidableEq

/-- The mapping `get_request_headers`' return statement would build. -/
structure LocationHeaders where
  location : String
  proto : String
  host : String
deriving Repr, DecidableEq

/-- `request.py` lines 67-78, `get_request_headers`.  Lines 68-73 compute
`proto` (`X-Forwarded-Proto` else `"http"`) and `host` (`X-Forwarded-Host`
else the `Host` header) without error, but the returned dict's f-string at
line 75 interpolates `options.prefix` and `uuid` — names bound nowhere in
the function (not parameters, not globals) — so every call raises
`NameError` before anything is returned.  (The router additionally calls it
with a `uuid=` keyword argument the signature does not accept, a
`TypeError` even before the body would run.) -/
def get_request_headers (request : RequestHeaders) :
    Except PyErr LocationHeaders :=
  .error .nameError

/-- Result of one POST request. -/
structure PostResult where
  store : Store
  status : Nat
  location : Option String
  depHookCalls : Nat
  crash : Option PyErr
deriving Repr, DecidableEq

/-- `router.py` lines 209-260, `extension_creation_route`: guard first; 400
when `Upload-Defer-Length` is present and not 1; then metadata decoding
(lines 225-231; the base64 decoding of the header is outside the claims, so
the decoded key/value map is taken as input).  Then the route crashes on
every request:
* when `Upload-Length` is absent (`upload_length = none`, the
  deferred-length case and the no-headers case), line 233's
  `TusUploadParams(..., size=upload_length, ...)` passes `None` for the
  field annotated `size: int` — a pydantic `ValidationError`;
* otherwise line 243's `TusUploadFile(options=options, params=params)`
  omits the required positional `uid` (`file.py` line 21) — a `TypeError`.
Either way the request is a 500 with NO file created, and the remaining
lines — the line-245 `get_request_headers` call (itself unable to succeed,
see its comment), the `Location` header, the 201, and the completion hook —
are unreachable.  The request `body` is unused even before the crash: the
route neither iterates `request.stream()` nor calls `get_request_chunks`
(whose `post_request` branch is dead code), although the router's
`tus_extension` advertises `creation-with-upload`. -/
def extension_creation_route (opts : TusRouterOptions) (auth : Option Nat)
    (request : RequestHeaders)
    (upload_metadata : Option (List (String × String)))
    (upload_length : Option Nat) (upload_defer_length : Option Nat)
    (body : Body) (freshUid : String) (nowStr nowExpiry : String)
    (s : Store) : PostResult :=
  match auth with
  | some e => ⟨s, e, none, 0, none⟩
  | none =>
    if (match upload_defer_length with | some d => d != 1 | none => false) then
      ⟨s, 400, none, 0, none⟩
    else if upload_length.isNone then
      ⟨s, 500, none, 0, some .validationError⟩
    else
      ⟨s, 500, none, 0, some .typeError⟩

/-- One request to the mounted router, with the inputs each handler reads. -/
inductive Req
  | optionsRoot
  | optionsUuid (uuid : String)
  | post (headers : RequestHeaders)
      (upload_metadata : Option (List (String × String)))
      (upload_length : Option Nat) (upload_defer_length : Option Nat)
      (body : Body) (freshUid : String)
  | head (uuid : String)
  | patch (uuid : String) (content_length upload_offset : Nat) (body : Body)
  | delete (uuid : String)
  | get (uuid : String)

/-- Dispatch of one request through the router exactly as `router.py` wires
the routes: every route passes the configured guard as a dependency except
`extension_get_upload`, which declares none, so the `auth` argument is
ignored on the GET arm. -/
def router_handle (opts : TusRouterOptions) (auth : Option Nat) (req : Req)
    (nowStr nowExpiry : String) (s : Store) : SimpleResult :=
  match req with
  | .optionsRoot => core_options_route opts auth s
  | .optionsUuid u => options_upload_chunk opts auth u s
  | .post h m l d b uid =>
    let r := extension_creation_route opts auth h m l d b uid nowStr nowExpiry s
    ⟨r.store, r.status, r.crash⟩
  | .head u => core_head_route opts auth u s
  | .patch u cl uo b =>
    let r := core_patch_route opts auth u cl uo b nowExpiry s
    ⟨r.store, r.status, r.crash⟩
  | .delete u => extension_termination_route opts auth u s
  | .get u =>
    let out := extension_get_upload opts u s
    ⟨s, getOutcomeStatus out,
      match out with | .keyError _ => some .keyError | _ => none⟩

/-- `os.listdir(options.files_dir)`: the names of all files in the upload
directory — the payload files (named `<id>`) and the sidecar files (named
`<id>.info`). -/
def dirListing (s : Store) : List String :=
  s.payloads.map Prod.fst ++ s.sidecars.map (fun kv => kv.fst ++ ".info")

/-- `file.py` line 83: the sweeper's id heuristic — keep exactly the
directory entries whose name length is 32. -/
def gcCandidates (s : Store) : List String :=
  (dirListing s).filter (fun f => f.length = 32)

/-- `file.py` lines 81-91, `gc_files`: line 83 computes the candidate list
(the length-32 names), then the loop crashes on its FIRST candidate: line
86's `TusUploadFile(uid=uid)` omits the required `options` argument
(`file.py` line 21) — `TypeError`.  (Even repaired, line 89 calls
`fromisoformat` and `now` on the `datetime` MODULE — `file.py` line 8 is
`import datetime` — an `AttributeError`, and line 91's `file.delete()`
lacks its declared `uid` argument.)  The sweep therefore never deletes
anything: with no candidates it completes as a no-op, otherwise it raises
with the store untouched. -/
def gc_files (s : Store) : Store × Option PyErr :=
  match gcCandidates s with
  | [] => (s, none)
  | _ :: _ => (s, some .typeError)

/-! ### Concrete fixtures for the concrete-input theorems -/

/-- A router configuration with `on_upload_complete` configured and the
default completion dependency (no custom `upload_complete_dep`). -/
def optsA : TusRouterOptions :=
  { prefix_ := "files", max_size := 1000, days_to_keep := 5,
    on_upload_complete := true, upload_complete_dep := false,
    tus_version := "1.0.0",
    tus_extension :=
      "creation,creation-defer-length,creation-with-upload,expiration,termination" }

/-- A record two bytes into a declared five-byte upload. -/
def paramsA : TusUploadParams :=
  { metadata := [("filename", "hello.txt"), ("filetype", "text/plain")],
    size := some 5, offset := 2, upload_part := 1, created_at := "t0",
    defer_length := false, upload_chunk_size := 2, expires := some "e0" }

def storeA : Store :=
  { payloads := [("a1", [104, 101])], sidecars := [("a1", paramsA)] }

/-- A configuration with a tiny `max_size` of 3 bytes. -/
def optsB : TusRouterOptions :=
  { optsA with max_size := 3 }

/-- A record two bytes into an upload, under `max_size = 3`. -/
def paramsB : TusUploadParams :=
  { paramsA with size := some 4, offset := 2 }

def storeB : Store :=
  { payloads := [("a1", [1, 2])], sidecars := [("a1", paramsB)] }

/-- A complete record (offset 5 = size 5) whose metadata has a `"name"` key
(for the GET route and for the completion branch of PATCH). -/
def paramsG : TusUploadParams :=
  { metadata := [("name", "hello.txt"), ("filetype", "text/plain")],
    size := some 5, offset := 5, upload_part := 2, created_at := "t0",
    defer_length := false, upload_chunk_size := 3, expires := some "e0" }

def storeG : Store :=
  { payloads := [("g1", [104, 101, 108, 108, 111])], sidecars := [("g1", paramsG)] }

/-- A record created with only `"filename"`/`"filetype"` metadata — no
`"name"` key. -/
def paramsN : TusUploadParams :=
  { metadata := [("filename", "hello.txt"), ("filetype", "text/plain")],
    size := some 2, offset := 2, upload_part := 1, created_at := "t0",
    defer_length := false, upload_chunk_size := 2, expires := some "e0" }

def storeN : Store :=
  { payloads := [("n1", [104, 105])], sidecars := [("n1", paramsN)] }

/-- A deferred-length record with no bytes yet. -/
def paramsD : TusUploadParams :=
  { metadata := [("filename", "hello.txt"), ("filetype", "text/plain")],
    size := none, offset := 0, upload_part := 0, created_at := "t0",
    defer_length := true, upload_chunk_size := 0, expires := some "e0" }

def storeD : Store :=
  { payloads := [("d1", [])], sidecars := [("d1", paramsD)] }

/-- A store whose only upload has a 32-character id and an expired record
(a sweeper candidate). -/
def paramsX : TusUploadParams :=
  { paramsA with expires := some "2000-01-01T00:00:00" }

def storeX : Store :=
  { payloads := [("0123456789abcdef0123456789abcdef", [1, 2])],
    sidecars := [("0123456789abcdef0123456789abcdef", paramsX)] }

/-- Request headers carrying only a `Host`. -/
def reqHdrsA : RequestHeaders :=
  { host := some "example.com", x_forwarded_proto := none,
    x_forwarded_host := none }

/-! ### The claims -/

/-- C1: the claim says the completion hook fires exactly once on the PATCH
that makes `offset` equal `size`.  In the source it fires ZERO times and
the request is a 500: a PATCH with a non-empty chunk dies in the streaming
dependency (`len(file)` TypeError, request.py line 42) before the handler
runs, and a PATCH that does reach the completion branch crashes evaluating
`file.params.file.paramsdata` (AttributeError, router.py lines 178/188)
before either call site can invoke the hook.  Concretely: an empty-body
PATCH on the complete record `g1` is a 500 via AttributeError with zero
hook executions, and a 3-byte PATCH that would complete `a1` is a 500 via
TypeError with zero hook executions and nothing written. -/
theorem patch_completion_crashes_with_zero_hook_calls :
    (core_patch_route optsA none "g1" 0 5 [] "e1" storeG).status = 500 ∧
    (core_patch_route optsA none "g1" 0 5 [] "e1" storeG).crash
      = some PyErr.attributeError ∧
    userHookCalls optsA (core_patch_route optsA none "g1" 0 5 [] "e1" storeG) = 0 ∧
    (core_patch_route optsA none "a1" 3 2 [[108, 108, 111]] "e1" storeA).status = 500 ∧
    userHookCalls optsA
      (core_patch_route optsA none "a1" 3 2 [[108, 108, 111]] "e1" storeA) = 0 ∧
    (core_patch_route optsA none "a1" 3 2 [[108, 108, 111]] "e1" storeA).store
      = storeA := by
  exact ⟨rfl, rfl, rfl, rfl, rfl, rfl⟩

/-- C2: the claim says a PATCH on an existing upload is 409 exactly when,
after streaming, the stored offset differs from
`Upload-Offset + Content-Length`.  In the source a PATCH with any non-empty
chunk never gets that far: `len(file)` raises TypeError (request.py line
42) before a byte is written, so the mismatched PATCH below — stored offset
2, `Upload-Offset 0`, `Content-Length 1` — is a 500, not a 409, with the
store untouched. -/
theorem patch_mismatch_returns_500_not_409 :
    (core_patch_route optsA none "a1" 1 0 [[9]] "e1" storeA).status = 500 ∧
    (core_patch_route optsA none "a1" 1 0 [[9]] "e1" storeA).crash
      = some PyErr.typeError ∧
    (core_patch_route optsA none "a1" 1 0 [[9]] "e1" storeA).status ≠ 409 ∧
    (core_patch_route optsA none "a1" 1 0 [[9]] "e1" storeA).store = storeA := by
  exact ⟨rfl, rfl, by decide, rfl⟩

/-- C3: the claim says a chunk whose append would exceed `max_size` is
rejected with 413 before the write while earlier bytes remain.  In the
source no 413 is ever returned and no byte is ever written: streaming
leaves the store unchanged for every body, and any non-empty chunk —
exceeding or not, the comparison is never evaluated — raises TypeError at
`len(file)` (request.py line 42). -/
theorem patch_streaming_never_writes_never_413 (opts : TusRouterOptions)
    (uuid : String) (body : Body) (s : Store) :
    (get_request_chunks opts uuid body false s).store = s ∧
    ∀ (c : Bytes) (rest : Body) (p : TusUploadParams),
      c.length ≠ 0 →
      processChunks opts uuid (c :: rest) p s = (s, some PyErr.typeError) := by
  refine ⟨get_request_chunks_store opts uuid body s, ?_⟩
  intro c rest p h0
  simp [processChunks, h0]

/-- Witness for C3: `max_size = 3`, payload already 2 bytes, a 2-byte chunk
arrives — the claim's 413-before-write point — and the loop crashes with
TypeError, writing nothing. -/
theorem patch_streaming_never_writes_never_413_witness :
    (get_request_chunks optsB "a1" [[7, 7]] false storeB).store = storeB ∧
    processChunks optsB "a1" [[7, 7]] paramsB storeB
      = (storeB, some PyErr.typeError) := by
  have h := patch_streaming_never_writes_never_413 optsB "a1" [[7, 7]] storeB
  exact ⟨h.1, h.2 [7, 7] [] paramsB (by decide)⟩

/-- C4: the claim says a POST with a non-empty body streams those bytes
into the new payload, advances the offset, and fires the hook on
completion.  In the source every POST crashes before any file exists:
here a POST with `Upload-Length: 5` and a 5-byte body dies at router.py
line 243 (`TusUploadFile(options=..., params=...)` missing the positional
`uid` — TypeError): 500, store unchanged, no `Location`, hook never
invoked — and the route contains no body-streaming call in the first
place. -/
theorem creation_route_crashes_before_creating_files :
    (extension_creation_route optsA none reqHdrsA
        (some [("filename", "hello.txt"), ("filetype", "text/plain")])
        (some 5) none [[104, 101, 108, 108, 111]] "b2" "t1" "e1"
        { payloads := [], sidecars := [] }).status = 500 ∧
    (extension_creation_route optsA none reqHdrsA
        (some [("filename", "hello.txt"), ("filetype", "text/plain")])
        (some 5) none [[104, 101, 108, 108, 111]] "b2" "t1" "e1"
        { payloads := [], sidecars := [] }).crash = some PyErr.typeError ∧
    (extension_creation_route optsA none reqHdrsA
        (some [("filename", "hello.txt"), ("filetype", "text/plain")])
        (some 5) none [[104, 101, 108, 108, 111]] "b2" "t1" "e1"
        { payloads := [], sidecars := [] }).store
      = { payloads := [], sidecars := [] } ∧
    (extension_creation_route optsA none reqHdrsA
        (some [("filename", "hello.txt"), ("filetype", "text/plain")])
        (some 5) none [[104, 101, 108, 108, 111]] "b2" "t1" "e1"
        { payloads := [], sidecars := [] }).depHookCalls = 0 := by
  exact ⟨rfl, rfl, rfl, rfl⟩

/-- C5: the claim says every POST's 201 carries a `Location` equal to
`<proto>://<host>/<prefix>/<id>` with the forwarded-header fallbacks.  In
the source no `Location` is ever produced: every call of
`get_request_headers` raises NameError on the unbound `options`/`uuid` in
its f-string (request.py line 75) — and the POST route crashes at
router.py line 243 before its line-245 call anyway, so the concrete POST
below is a 500 with no `Location` header. -/
theorem post_location_never_produced :
    (∀ request : RequestHeaders,
      get_request_headers request = Except.error PyErr.nameError) ∧
    (extension_creation_route optsA none reqHdrsA none (some 5) none []
        "b2" "t1" "e1" { payloads := [], sidecars := [] }).status = 500 ∧
    (extension_creation_route optsA none reqHdrsA none (some 5) none []
        "b2" "t1" "e1" { payloads := [], sidecars := [] }).location = none := by
  exact ⟨fun _ => rfl, rfl, rfl⟩

/-- C6: the claim says DELETE on an existing id removes both files and
responds 204, after which every verb is 404.  In the source only the
missing-id half holds (404, store unchanged): DELETE on the existing id
`a1` crashes at router.py line 273 (`file.delete()` against
`delete(self, uid)`, file.py line 66 — TypeError): 500, both files remain,
and a subsequent HEAD on the same id is 200, not 404. -/
theorem delete_crashes_and_files_remain :
    extension_termination_route optsA none "zz" storeA = ⟨storeA, 404, none⟩ ∧
    extension_termination_route optsA none "a1" storeA
      = ⟨storeA, 500, some PyErr.typeError⟩ ∧
    (core_head_route optsA none "a1"
      (extension_termination_route optsA none "a1" storeA).store).status = 200 := by
  exact ⟨rfl, rfl, rfl⟩

/-- C7, counterexample: the claim says every route runs the configured auth
guard before its handler logic and a failing guard short-circuits to the
guard's error.  The source's `extension_get_upload` declares no
`Depends(auth)`: with a guard failing with 401, a GET on an existing upload
still runs the handler and returns the file (status 200, not 401). -/
theorem get_route_runs_despite_failing_guard :
    (router_handle optsA (some 401) (.get "g1") "t1" "e1" storeG).status = 200 ∧
    (router_handle optsA (some 401) (.get "g1") "t1" "e1" storeG).status ≠ 401 := by
  exact ⟨rfl, by decide⟩

/-- C7, amended: every route except GET consults the guard, and a failing
guard (`some e`) short-circuits to the guard's error with the upload
untouched — except that on PATCH the body-streaming dependency runs BEFORE
the guard (FastAPI resolves `Depends` in signature order), so when that
dependency raises (the TypeError on any non-empty chunk of an existing
upload) the response is that 500 instead of the guard's error; the upload
is untouched in every case (the streaming loop crashes before it can
write).  The GET route never consults the guard at all. -/
theorem guard_short_circuits_except_get (opts : TusRouterOptions) (e : Nat)
    (s : Store) (nowStr nowExpiry : String) :
    (∀ u, router_handle opts (some e) (.head u) nowStr nowExpiry s = ⟨s, e, none⟩) ∧
    (∀ u, router_handle opts (some e) (.delete u) nowStr nowExpiry s = ⟨s, e, none⟩) ∧
    (router_handle opts (some e) .optionsRoot nowStr nowExpiry s = ⟨s, e, none⟩) ∧
    (∀ u, router_handle opts (some e) (.optionsUuid u) nowStr nowExpiry s = ⟨s, e, none⟩) ∧
    (∀ h m l d b uid,
      router_handle opts (some e) (.post h m l d b uid) nowStr nowExpiry s
        = ⟨s, e, none⟩) ∧
    (∀ u content_length upload_offset b,
      (router_handle opts (some e) (.patch u content_length upload_offset b)
          nowStr nowExpiry s).store = s ∧
      ((get_request_chunks opts u b false s).crash = none →
        router_handle opts (some e) (.patch u content_length upload_offset b)
          nowStr nowExpiry s = ⟨s, e, none⟩) ∧
      (∀ er, (get_request_chunks opts u b false s).crash = some er →
        router_handle opts (some e) (.patch u content_length upload_offset b)
          nowStr nowExpiry s = ⟨s, 500, some er⟩)) ∧
    (∀ u, router_handle opts (some e) (.get u) nowStr nowExpiry s
        = router_handle opts none (.get u) nowStr nowExpiry s) := by
  refine ⟨fun u => rfl, fun u => rfl, rfl, fun u => rfl, fun h m l d b uid => rfl,
    ?_, fun u => rfl⟩
  intro u content_length upload_offset b
  have hst := get_request_chunks_store opts u b s
  refine ⟨?_, ?_, ?_⟩
  · simp only [router_handle, core_patch_route]
    cases hc : (get_request_chunks opts u b false s).crash <;> simp [hc, hst]
  · intro hc
    simp only [router_handle, core_patch_route]
    simp [hc, hst]
  · intro er hc
    simp only [router_handle, core_patch_route]
    simp [hc, hst]

/-- Witness for C7's amended statement: with a guard failing with 401, a
HEAD returns the guard's 401 untouched, while a 1-byte PATCH onto the
existing record `a1` returns the streaming dependency's 500 (TypeError) —
the guard never reached — with the store untouched. -/
theorem guard_short_circuits_except_get_witness :
    router_handle optsA (some 401) (.head "a1") "t1" "e1" storeA
      = ⟨storeA, 401, none⟩ ∧
    router_handle optsA (some 401) (.patch "a1" 1 2 [[9]]) "t1" "e1" storeA
      = ⟨storeA, 500, some PyErr.typeError⟩ := by
  have h := guard_short_circuits_except_get optsA 401 storeA "t1" "e1"
  exact ⟨h.1 "a1", ((h.2.2.2.2.2.1 "a1" 1 2 [[9]]).2.2) PyErr.typeError rfl⟩

/-- C8: the claim says a sweep deletes exactly the expired records among
the length-32 entries.  In the source the sweep deletes NOTHING: it
completes as a no-op when there is no length-32 candidate and crashes with
TypeError on the first candidate otherwise (`TusUploadFile(uid=uid)`
without `options`, file.py line 86) — in particular the expired 32-character
record of `storeX` survives the sweep intact. -/
theorem gc_sweeper_crashes_and_deletes_nothing (s : Store) :
    (gc_files s).fst = s ∧
    (gc_files s).snd
      = (if gcCandidates s = [] then none else some PyErr.typeError) ∧
    gc_files storeX = (storeX, some PyErr.typeError) := by
  refine ⟨?_, ?_, rfl⟩ <;>
    cases h : gcCandidates s <;> simp [gc_files, h]

/-- C9, counterexample: the claim says every PATCH on a deferred-length
record sets the stored `size` to `Upload-Offset`.  A deferred-length PATCH
with a non-empty body never reaches that line: the 2-byte PATCH below dies
in the streaming dependency (TypeError at request.py line 42) — 500, the
sidecar unchanged, `size` still unset rather than `some 0`. -/
theorem patch_defer_nonempty_body_crashes :
    (core_patch_route optsA none "d1" 2 0 [[8, 9]] "e1" storeD).status = 500 ∧
    (core_patch_route optsA none "d1" 2 0 [[8, 9]] "e1" storeD).store.sidecar "d1"
      = some paramsD ∧
    ((core_patch_route optsA none "d1" 2 0 [[8, 9]] "e1" storeD).store.sidecar "d1").map
        TusUploadParams.size ≠ some (some 0) := by
  refine ⟨rfl, rfl, ?_⟩
  have h2 : (core_patch_route optsA none "d1" 2 0 [[8, 9]] "e1" storeD).store.sidecar "d1"
      = some paramsD := rfl
  rw [h2]
  simp [paramsD]

/-- C9, amended: on a PATCH that reaches the handler — one whose streaming
dependency did not crash, i.e. the body contained no non-empty chunk (or
the files were missing) — a deferred-length record that passes the offset
check gets its stored `size` set to the `Upload-Offset` header, not to
`Upload-Offset + Content-Length` (router.py lines 156-157; the update is
persisted at line 164 even when the completion branch then crashes). -/
theorem patch_defer_sets_size_when_handler_reached (opts : TusRouterOptions)
    (uuid : String) (content_length upload_offset : Nat) (body : Body)
    (nowExpiry : String) (s : Store) (p1 : TusUploadParams)
    (hcr : (get_request_chunks opts uuid body false s).crash = none)
    (hsc : (get_request_chunks opts uuid body false s).store.sidecar uuid = some p1)
    (hdefer : p1.defer_length = true)
    (hoff : p1.offset = upload_offset + content_length) :
    ((core_patch_route opts none uuid content_length upload_offset body
        nowExpiry s).store.sidecar uuid).map TusUploadParams.size
      = some (some upload_offset) := by
  simp only [core_patch_route, hcr, hsc]
  simp only [hoff, hdefer]
  split
  · next h => exact absurd rfl h
  · simp [apply_ite PatchResult.store, apply_ite TusUploadParams.size,
      Store.sidecar_setSidecar_self]

/-- Witness for C9's amended statement: an empty-body PATCH on the
deferred-length record `d1` (offset 0, `Upload-Offset 0`,
`Content-Length 0`) reaches the handler and sets the stored `size` to 0. -/
theorem patch_defer_sets_size_when_handler_reached_witness :
    ((core_patch_route optsA none "d1" 0 0 [] "e1" storeD).store.sidecar "d1").map
        TusUploadParams.size = some (some 0) := by
  exact patch_defer_sets_size_when_handler_reached optsA "d1" 0 0 [] "e1"
    storeD paramsD rfl rfl rfl rfl

/-- C10: a GET on an existing upload whose metadata lacks the `"name"` key
reaches the handler's direct indexing `metadata["name"]` and fails with an
uncaught `KeyError` (an internal error), not with any `HTTPException`
status such as 400 or 404. -/
theorem get_missing_name_raises_key_error (opts : TusRouterOptions)
    (uuid : String) (s : Store) (p : TusUploadParams)
    (hsc : s.sidecar uuid = some p)
    (hpay : (s.payload uuid).isSome)
    (hname : lookupA p.metadata "name" = none) :
    extension_get_upload opts uuid s = .keyError "name" ∧
    ∀ c, extension_get_upload opts uuid s ≠ .httpError c := by
  have hmain : extension_get_upload opts uuid s = .keyError "name" := by
    unfold extension_get_upload
    rw [hsc]
    cases hp : s.payload uuid with
    | none => rw [hp] at hpay; exact absurd hpay (by simp)
    | some b => simp [hp, hname]
  refine ⟨hmain, ?_⟩
  intro c
  rw [hmain]
  simp

/-- Witness for C10: the record `"n1"` was created with only `"filename"`
and `"filetype"` metadata (which HEAD accepts via fallback) — its GET is an
uncaught `KeyError`, not a 404. -/
theorem get_missing_name_raises_key_error_witness :
    extension_get_upload optsA "n1" storeN = .keyError "name" ∧
    extension_get_upload optsA "n1" storeN ≠ .httpError 404 := by
  have h := get_missing_name_raises_key_error optsA "n1" storeN paramsN rfl rfl rfl
  exact ⟨h.1, h.2 404⟩

end Tuspyserver
